import Mathlib

/-!
Shallow embedding of `src/octavia/controller/worker/v2/tasks/amphora_driver_tasks.py`.

Entity statuses (values of `octavia.common.constants` such as `ERROR`,
`AMPHORA_ALLOCATED`, `ACTIVE`) are modelled as an inductive type of opaque
distinct tags.  The persistent store (amphora / listener / load-balancer
repositories) and the `task_utils` status helpers are external collaborators
of this file's source; they are modelled from the spec's Entity Store and
Status Updater interfaces: `get` returns a snapshot or nothing, `update`
applies field changes to the stored row and is a no-op on a missing row.
The amphora driver is an external plugin; it is modelled as a record of
oracles, one per operation, each returning a value or a typed error.
Python exceptions are modelled with `Except`; a task's execution returns the
resulting store together with `Except Exc ret`, since status writes performed
before a re-raise persist.
-/

/-- Opaque status constants from `octavia.common.constants`. -/
inductive Status where
  | ALLOCATED
  | ERROR
  | ACTIVE
  | other (s : String)
  deriving DecidableEq, Repr

/-- Typed failure categories raised by the amphora driver
(`octavia.amphorae.driver_exceptions.exceptions`). -/
inductive ErrKind where
  | ampConnectionRetry
  | timeOut
  | notImplemented
  | generic
  deriving DecidableEq, Repr

/-- Result of one driver operation: a value or a raised driver error. -/
abbrev DRes (α : Type) := Except ErrKind α

/-- Exceptions observable at task level: a driver error, an `AttributeError`
from dereferencing `None`, or an `IndexError` from list indexing. -/
inductive Exc where
  | driver (k : ErrKind)
  | noneAttr
  | indexError
  deriving DecidableEq, Repr

/-- Decision values of `taskflow.retry`. -/
inductive RetryDecision where
  | RETRY
  | REVERT_ALL
  deriving DecidableEq, Repr

/-- The recorded exception information of one failed task attempt:
`ex_info._exc_info` may itself be absent (persisted flow restored after a
worker restart). -/
structure ExInfo where
  excInfo : Option ErrKind
  deriving DecidableEq, Repr

/-- The for-loop of `AmpRetry.on_failure` over `history[-1][1].items()`:
each entry maps a task name to optional exception info.  Mirrors the source:
the length bound is checked inside the loop, the absent-info check and the
`AmpConnectionRetry` check are both guarded by it, and any entry that does
not return falls through to the next entry. -/
def ampRetryLoop (maxRetryAttempt : Nat) (histLen : Nat) :
    List (String × Option ExInfo) → RetryDecision
  | [] => RetryDecision.REVERT_ALL
  | (_, exInfo) :: rest =>
    if histLen ≤ maxRetryAttempt then
      match exInfo with
      | none => RetryDecision.RETRY
      | some info =>
        match info.excInfo with
        | none => RetryDecision.RETRY
        | some excp =>
          if excp = ErrKind.ampConnectionRetry then RetryDecision.RETRY
          else ampRetryLoop maxRetryAttempt histLen rest
    else ampRetryLoop maxRetryAttempt histLen rest

/-- `AmpRetry.on_failure` (source lines 55-72).  `history` is the attempt
history supplied by taskflow: a sequence of (atom name, failure map) pairs;
`history[-1]` on an empty history would raise, modelled as `none`.
`maxRetryAttempt` stands for `CONF.haproxy_amphora.connection_max_retries`. -/
def ampRetryOnFailure (maxRetryAttempt : Nat)
    (history : List (String × List (String × Option ExInfo))) :
    Option RetryDecision :=
  match history.getLast? with
  | none => none
  | some (_, lastErrors) =>
    some (ampRetryLoop maxRetryAttempt history.length lastErrors)

/-- An amphora row of the persistent store. -/
structure Amphora where
  id : Nat
  status : Status
  vrrp_interface : Option String
  deriving DecidableEq, Repr

/-- A listener row of the persistent store. -/
structure Listener where
  id : Nat
  prov_status : Status
  deriving DecidableEq, Repr

/-- A load-balancer row of the persistent store; its amphorae and listeners
are held as relationships to the corresponding rows. -/
structure LBRec where
  id : Nat
  prov_status : Status
  amphoraIds : List Nat
  listenerIds : List Nat
  deriving DecidableEq, Repr

/-- The load-balancer snapshot returned by `loadbalancer_repo.get`: the row
with its amphora and listener relationships loaded. -/
structure DbLB where
  id : Nat
  prov_status : Status
  amphorae : List Amphora
  listeners : List Listener
  deriving DecidableEq, Repr

/-- Modelled from the spec: the Entity Store interface consumed by the tasks
(`octavia.db.repositories`, not part of the given source).  `get(id)` returns
the row or nothing; `update(id, fields)` rewrites fields of the stored row
and is a no-op on a missing row. -/
structure Store where
  amps : Nat → Option Amphora
  listeners : Nat → Option Listener
  lbs : Nat → Option LBRec

/-- `loadbalancer_repo.get`: assemble the snapshot with relationships. -/
def Store.getLB (s : Store) (i : Nat) : Option DbLB :=
  (s.lbs i).map fun r =>
    { id := r.id
      prov_status := r.prov_status
      amphorae := r.amphoraIds.filterMap s.amps
      listeners := r.listenerIds.filterMap s.listeners }

/-- `amphora_repo.update(session, id, status=st)`. -/
def Store.updateAmpStatus (s : Store) (i : Nat) (st : Status) : Store :=
  { s with
    amps := fun j =>
      if j = i then (s.amps i).map (fun a => { a with status := st })
      else s.amps j }

/-- `amphora_repo.update(session, id, vrrp_interface=v)`. -/
def Store.updateAmpVrrp (s : Store) (i : Nat) (v : String) : Store :=
  { s with
    amps := fun j =>
      if j = i then (s.amps i).map (fun a => { a with vrrp_interface := some v })
      else s.amps j }

/-- Modelled from the spec: the Status Updater helper
`task_utils.mark_amphora_status_error` (not part of the given source):
idempotently set the amphora row's status to ERROR. -/
def Store.markAmphoraStatusError (s : Store) (i : Nat) : Store :=
  s.updateAmpStatus i Status.ERROR

/-- Modelled from the spec: the Status Updater helper
`task_utils.mark_listener_prov_status_error` (not part of the given source):
idempotently set the listener row's provisioning status to ERROR. -/
def Store.markListenerProvStatusError (s : Store) (i : Nat) : Store :=
  { s with
    listeners := fun j =>
      if j = i then
        (s.listeners i).map (fun l => { l with prov_status := Status.ERROR })
      else s.listeners j }

/-- Modelled from the spec: the Status Updater helper
`task_utils.mark_loadbalancer_prov_status_error` (not part of the given
source): idempotently set the load balancer row's provisioning status to
ERROR. -/
def Store.markLoadBalancerProvStatusError (s : Store) (i : Nat) : Store :=
  { s with
    lbs := fun j =>
      if j = i then (s.lbs i).map (fun r => { r with prov_status := Status.ERROR })
      else s.lbs j }

/-- The agent configuration blob produced by
`agent_jinja_cfg.AgentJinjaTemplater().build_agent_config(amp_id, topology)`.
Modelled from the spec: the builder is an external collaborator producing an
opaque blob from an amphora identity and a topology value. -/
structure AgentConfig where
  amp_id : Nat
  topology : String
  deriving DecidableEq, Repr

/-- The amphora driver plugin, as a record of operation oracles.  Arguments
are `Option` wherever the task may hand the driver the result of a repo
`get` that found nothing (Python `None`). -/
structure Driver where
  update_amphora_listeners : Option DbLB → Option Amphora → DRes Unit
  get_vrrp_interface : Amphora → DRes String
  get_info : Option Amphora → DRes Nat
  update_amphora_agent_config : Option Amphora → AgentConfig → DRes Unit
  start : DbLB → Option Amphora → DRes Unit

/-- The taskflow result value handed to `revert`: either the output of the
task's own successful execute, or the `taskflow.types.failure.Failure`
marker recording that this very execute failed. -/
inductive TaskResult where
  | success
  | failure
  deriving DecidableEq, Repr

/-- The try block of `AmpListenersUpdate.execute(loadbalancer,
amphora_index, amphorae, ...)` (source lines 82-92).  The whole body is one
try: per-amphora rows and the load-balancer row are fetched (a missing row
yields `none`, no exception), `db_amphorae[amphora_index]` may raise
`IndexError`, and the driver call may raise. -/
def ampListenersUpdateTry (drv : Driver) (s : Store) (lbId : Nat)
    (amphora_index : Nat) (amphorae : List Nat) : Except Exc Unit :=
  let db_amphorae := amphorae.map s.amps
  let db_lb := s.getLB lbId
  match db_amphorae[amphora_index]? with
  | none => Except.error Exc.indexError
  | some db_amp =>
    match drv.update_amphora_listeners db_lb db_amp with
    | Except.ok u => Except.ok u
    | Except.error e => Except.error (Exc.driver e)

/-- `AmpListenersUpdate.execute`: `ampListenersUpdateTry` wrapped in the
except-Exception handler (source lines 93-99), which marks
`amphorae[amphora_index]` ERROR (itself re-raising `IndexError` when the
index is out of range there too). -/
def ampListenersUpdateExec (drv : Driver) (s : Store) (lbId : Nat)
    (amphora_index : Nat) (amphorae : List Nat) : Store × Except Exc Unit :=
  match ampListenersUpdateTry drv s lbId amphora_index amphorae with
  | Except.ok _ => (s, Except.ok ())
  | Except.error _ =>
    match amphorae[amphora_index]? with
    | none => (s, Except.error Exc.indexError)
    | some amphora_id =>
      (s.updateAmpStatus amphora_id Status.ERROR, Except.ok ())

/-- The per-amphora loop of `AmphoraUpdateVRRPInterface.execute` over the
ALLOCATED amphorae (source lines 345-364): on a driver error the amphora is
marked ERROR and the loop continues; on success its `vrrp_interface` is
written and the freshly re-read row (possibly `None`) is appended to the
accumulator. -/
def vrrpLoop (drv : Driver) :
    List Amphora → Store → List (Option Amphora) → Store × List (Option Amphora)
  | [], s, amps => (s, amps)
  | amp :: rest, s, amps =>
    match drv.get_vrrp_interface amp with
    | Except.error _ =>
      vrrpLoop drv rest (s.updateAmpStatus amp.id Status.ERROR) amps
    | Except.ok iface =>
      let s2 := s.updateAmpVrrp amp.id iface
      vrrpLoop drv rest s2 (amps ++ [s2.amps amp.id])

/-- `AmphoraUpdateVRRPInterface.execute(loadbalancer)` (source lines
335-367).  The load-balancer fetch is outside any try; a missing row makes
`db_lb.amphorae` raise (`AttributeError` on `None`).  Otherwise the task
iterates the ALLOCATED amphorae with per-target error isolation and returns
the collected refreshed amphora snapshots (the provider translation of the
result load balancer keeps exactly this amphora collection). -/
def amphoraUpdateVRRPInterfaceExec (drv : Driver) (s : Store) (lbId : Nat) :
    Store × Except Exc (List (Option Amphora)) :=
  match s.getLB lbId with
  | none => (s, Except.error Exc.noneAttr)
  | some db_lb =>
    let r := vrrpLoop drv
      (db_lb.amphorae.filter (fun a => decide (a.status = Status.ALLOCATED))) s []
    (r.1, Except.ok r.2)

/-- `ListenerDelete.revert(listener, ...)` (source lines 162-168): marks the
listener's provisioning status ERROR unconditionally — the taskflow result
value is not inspected. -/
def listenerDeleteRevert (_result : TaskResult) (s : Store)
    (listenerId : Nat) : Store :=
  s.markListenerProvStatusError listenerId

/-- `AmphoraFinalize.revert(result, amphora, ...)` (source lines 199-205):
a no-op when `result` is a failure marker, otherwise marks the amphora
ERROR. -/
def amphoraFinalizeRevert (result : TaskResult) (s : Store)
    (ampId : Nat) : Store :=
  match result with
  | TaskResult.failure => s
  | TaskResult.success => s.markAmphoraStatusError ampId

/-- `AmphoraPostNetworkPlug.revert(result, amphora, ...)` (source lines
231-236): a no-op when `result` is a failure marker, otherwise marks the
amphora ERROR. -/
def amphoraPostNetworkPlugRevert (result : TaskResult) (s : Store)
    (ampId : Nat) : Store :=
  match result with
  | TaskResult.failure => s
  | TaskResult.success => s.markAmphoraStatusError ampId

/-- `AmphoraPostVIPPlug.revert(result, amphora, loadbalancer, ...)` (source
lines 286-293): a no-op when `result` is a failure marker, otherwise marks
the amphora ERROR and the load balancer's provisioning status ERROR. -/
def amphoraPostVIPPlugRevert (result : TaskResult) (s : Store)
    (ampId : Nat) (lbId : Nat) : Store :=
  match result with
  | TaskResult.failure => s
  | TaskResult.success =>
    (s.markAmphoraStatusError ampId).markLoadBalancerProvStatusError lbId

/-- `AmphoraComputeConnectivityWait.execute(amphora, ...)` (source lines
427-444): `get_info` on the amphora row; only `TimeOutException` is caught,
marking the amphora ERROR and re-raising; any other driver error propagates
untouched.  The Python method has no return statement, so on success the
task's result value is `None` (modelled `none`) — the info payload is only
logged. -/
def amphoraComputeConnectivityWaitExec (drv : Driver) (s : Store)
    (ampId : Nat) : Store × Except Exc (Option Nat) :=
  match drv.get_info (s.amps ampId) with
  | Except.ok _ => (s, Except.ok none)
  | Except.error k =>
    if k = ErrKind.timeOut then
      (s.updateAmpStatus ampId Status.ERROR, Except.error (Exc.driver k))
    else (s, Except.error (Exc.driver k))

/-- The topology selection of `AmphoraConfigUpdate.execute` (source lines
452-456): Python `if flavor:` is false for `None` and for an empty dict;
otherwise `flavor.get("loadbalancer_topology", CONF-default)`.
`defaultTopology` stands for `CONF.controller_worker.loadbalancer_topology`. -/
def configUpdateTopology (flavor : Option (List (String × String)))
    (defaultTopology : String) : String :=
  match flavor with
  | none => defaultTopology
  | some f =>
    if f.isEmpty then defaultTopology
    else ((f.lookup "loadbalancer_topology").getD defaultTopology)

/-- The agent configuration built by `AmphoraConfigUpdate.execute` (source
lines 459-461) and handed to the driver. -/
def amphoraConfigUpdateAgentConfig (ampId : Nat)
    (flavor : Option (List (String × String)))
    (defaultTopology : String) : AgentConfig :=
  { amp_id := ampId, topology := configUpdateTopology flavor defaultTopology }

/-- `AmphoraConfigUpdate.execute(amphora, flavor)` (source lines 450-472):
build the agent config, fetch the amphora row, push the config; only
`AmpDriverNotImplementedError` is caught (logged and swallowed), every other
driver error propagates. -/
def amphoraConfigUpdateExec (drv : Driver) (s : Store) (ampId : Nat)
    (flavor : Option (List (String × String))) (defaultTopology : String) :
    Store × Except Exc Unit :=
  let agent_config := amphoraConfigUpdateAgentConfig ampId flavor defaultTopology
  let db_amp := s.amps ampId
  match drv.update_amphora_agent_config db_amp agent_config with
  | Except.ok _ => (s, Except.ok ())
  | Except.error k =>
    if k = ErrKind.notImplemented then (s, Except.ok ())
    else (s, Except.error (Exc.driver k))

/-- Externally observable calls made by `ListenersStart.execute`: the
amphora-row lookup and the driver `start` call. -/
inductive StartEvent where
  | ampGet (ampId : Nat)
  | driverStart (lbId : Nat)
  deriving DecidableEq, Repr

/-- `ListenersStart.execute(loadbalancer, amphora=None)` (source lines
129-140).  The load-balancer fetch is unguarded (`db_lb.listeners` raises on
`None`); when the listener collection is empty nothing else happens; when it
is non-empty the amphora row is looked up (when an amphora was supplied) and
the driver `start` is invoked.  The trace records the external calls made. -/
def listenersStartExec (drv : Driver) (s : Store) (lbId : Nat)
    (amphora : Option Nat) : (Store × Except Exc Unit) × List StartEvent :=
  match s.getLB lbId with
  | none => ((s, Except.error Exc.noneAttr), [])
  | some db_lb =>
    if db_lb.listeners.isEmpty then ((s, Except.ok ()), [])
    else
      match amphora with
      | some ampId =>
        let db_amp := s.amps ampId
        match drv.start db_lb db_amp with
        | Except.ok _ =>
          ((s, Except.ok ()), [StartEvent.ampGet ampId, StartEvent.driverStart lbId])
        | Except.error k =>
          ((s, Except.error (Exc.driver k)),
            [StartEvent.ampGet ampId, StartEvent.driverStart lbId])
      | none =>
        match drv.start db_lb none with
        | Except.ok _ => ((s, Except.ok ()), [StartEvent.driverStart lbId])
        | Except.error k =>
          ((s, Except.error (Exc.driver k)), [StartEvent.driverStart lbId])

/-- The status field of the stored amphora row `j`, when the row exists. -/
def statusOf (s : Store) (j : Nat) : Option Status :=
  (s.amps j).map Amphora.status

/-- Whether an `Except` completed without an exception. -/
def isOkE {ε α : Type} : Except ε α → Bool
  | Except.ok _ => true
  | Except.error _ => false

/-- Whether one attempt's recorded failure info is absent in the sense of
`AmpRetry.on_failure`: `ex_info is None or ex_info._exc_info is None`. -/
def absentInfo : Option ExInfo → Bool
  | none => true
  | some info => info.excInfo.isNone

/-- Concrete amphora used by witnesses. -/
def c1ampA : Amphora := { id := 1, status := Status.ALLOCATED, vrrp_interface := none }

/-- Concrete store holding amphora 1 only; no load balancers, no listeners. -/
def c1storeA : Store :=
  { amps := fun j => if j = 1 then some c1ampA else none
    listeners := fun _ => none
    lbs := fun _ => none }

/-- Concrete driver whose every operation raises a generic error. -/
def c1drvA : Driver :=
  { update_amphora_listeners := fun _ _ => Except.error ErrKind.generic
    get_vrrp_interface := fun _ => Except.error ErrKind.generic
    get_info := fun _ => Except.error ErrKind.generic
    update_amphora_agent_config := fun _ _ => Except.error ErrKind.generic
    start := fun _ _ => Except.error ErrKind.generic }

/-- Concrete amphorae 1 and 2, both ALLOCATED. -/
def c1amp1 : Amphora := { id := 1, status := Status.ALLOCATED, vrrp_interface := none }

def c1amp2 : Amphora := { id := 2, status := Status.ALLOCATED, vrrp_interface := none }

/-- Concrete store: load balancer 0 owning ALLOCATED amphorae 1 and 2. -/
def c1storeB : Store :=
  { amps := fun j =>
      if j = 1 then some c1amp1 else if j = 2 then some c1amp2 else none
    listeners := fun _ => none
    lbs := fun j =>
      if j = 0 then
        some { id := 0, prov_status := Status.ACTIVE, amphoraIds := [1, 2],
               listenerIds := [] }
      else none }

/-- Concrete driver failing VRRP-interface discovery exactly on amphora 1. -/
def c1drvB : Driver :=
  { update_amphora_listeners := fun _ _ => Except.ok ()
    get_vrrp_interface := fun a =>
      if a.id = 1 then Except.error ErrKind.generic else Except.ok "eth1"
    get_info := fun _ => Except.ok 0
    update_amphora_agent_config := fun _ _ => Except.ok ()
    start := fun _ _ => Except.ok () }

/-- Concrete store for the ListenerDelete revert check: listener 5 ACTIVE. -/
def c4store : Store :=
  { amps := fun _ => none
    listeners := fun j =>
      if j = 5 then some { id := 5, prov_status := Status.ACTIVE } else none
    lbs := fun _ => none }

/-- Concrete driver whose get_info always succeeds with payload 42. -/
def c6drvOk : Driver :=
  { update_amphora_listeners := fun _ _ => Except.ok ()
    get_vrrp_interface := fun _ => Except.ok "eth1"
    get_info := fun _ => Except.ok 42
    update_amphora_agent_config := fun _ _ => Except.ok ()
    start := fun _ _ => Except.ok () }

/-- Concrete driver whose get_info always raises the timeout error. -/
def c6drvTimeout : Driver :=
  { update_amphora_listeners := fun _ _ => Except.ok ()
    get_vrrp_interface := fun _ => Except.ok "eth1"
    get_info := fun _ => Except.error ErrKind.timeOut
    update_amphora_agent_config := fun _ _ => Except.ok ()
    start := fun _ _ => Except.ok () }

/-- Concrete driver whose agent-config push raises the
unsupported-capability error. -/
def c9drv : Driver :=
  { update_amphora_listeners := fun _ _ => Except.ok ()
    get_vrrp_interface := fun _ => Except.ok "eth1"
    get_info := fun _ => Except.ok 0
    update_amphora_agent_config := fun _ _ =>
      Except.error ErrKind.notImplemented
    start := fun _ _ => Except.ok () }

lemma updateAmpStatus_amps_ne (s : Store) (i : Nat) (st : Status) (j : Nat)
    (h : j ≠ i) : (s.updateAmpStatus i st).amps j = s.amps j := by
  simp [Store.updateAmpStatus, h]

lemma updateAmpVrrp_amps_ne (s : Store) (i : Nat) (v : String) (j : Nat)
    (h : j ≠ i) : (s.updateAmpVrrp i v).amps j = s.amps j := by
  simp [Store.updateAmpVrrp, h]

lemma updateAmpVrrp_statusOf (s : Store) (i : Nat) (v : String) (j : Nat) :
    statusOf (s.updateAmpVrrp i v) j = statusOf s j := by
  by_cases h : j = i
  · subst h
    cases hc : s.amps j <;> simp [statusOf, Store.updateAmpVrrp, hc]
  · simp [statusOf, Store.updateAmpVrrp, h]

lemma updateAmpStatus_statusOf_self (s : Store) (i : Nat) (st : Status)
    (h : (s.amps i).isSome = true) :
    statusOf (s.updateAmpStatus i st) i = some st := by
  cases hc : s.amps i with
  | none => rw [hc] at h; cases h
  | some a => simp [statusOf, Store.updateAmpStatus, hc]

lemma updateAmpStatus_isSome (s : Store) (i : Nat) (st : Status) (j : Nat) :
    ((s.updateAmpStatus i st).amps j).isSome = (s.amps j).isSome := by
  by_cases h : j = i
  · subst h
    cases hc : s.amps j <;> simp [Store.updateAmpStatus, hc]
  · simp [Store.updateAmpStatus, h]

lemma updateAmpVrrp_isSome (s : Store) (i : Nat) (v : String) (j : Nat) :
    ((s.updateAmpVrrp i v).amps j).isSome = (s.amps j).isSome := by
  by_cases h : j = i
  · subst h
    cases hc : s.amps j <;> simp [Store.updateAmpVrrp, hc]
  · simp [Store.updateAmpVrrp, h]

lemma vrrpLoop_statusOf_ne (drv : Driver) (l : List Amphora) :
    ∀ (s : Store) (acc : List (Option Amphora)) (j : Nat),
      (∀ a ∈ l, (∀ v, drv.get_vrrp_interface a ≠ Except.ok v) → a.id ≠ j) →
      statusOf (vrrpLoop drv l s acc).1 j = statusOf s j := by
  induction l with
  | nil => intro s acc j _; simp [vrrpLoop]
  | cons a rest ih =>
    intro s acc j h
    cases hd : drv.get_vrrp_interface a with
    | error e =>
      have hne : a.id ≠ j := by
        refine h a (List.mem_cons_self a rest) ?_
        intro v hv
        rw [hd] at hv
        exact Except.noConfusion hv
      simp only [vrrpLoop, hd]
      rw [ih _ _ _ (fun b hb => h b (List.mem_cons_of_mem a hb))]
      unfold statusOf
      rw [updateAmpStatus_amps_ne _ _ _ _ (Ne.symm hne)]
    | ok v =>
      simp only [vrrpLoop, hd]
      rw [ih _ _ _ (fun b hb => h b (List.mem_cons_of_mem a hb))]
      exact updateAmpVrrp_statusOf s a.id v j

lemma vrrpLoop_statusOf_err (drv : Driver) (l1 : List Amphora) (af : Amphora)
    (l2 : List Amphora) :
    ∀ (s : Store) (acc : List (Option Amphora)),
      (∀ a ∈ l1, ∃ v, drv.get_vrrp_interface a = Except.ok v) →
      (∃ e, drv.get_vrrp_interface af = Except.error e) →
      (∀ a ∈ l2, (∀ v, drv.get_vrrp_interface a ≠ Except.ok v) → a.id ≠ af.id) →
      (s.amps af.id).isSome = true →
      statusOf (vrrpLoop drv (l1 ++ af :: l2) s acc).1 af.id =
        some Status.ERROR := by
  induction l1 with
  | nil =>
    intro s acc _ hf h2 hs
    obtain ⟨e, he⟩ := hf
    simp only [List.nil_append, vrrpLoop, he]
    rw [vrrpLoop_statusOf_ne drv l2 _ _ _ h2]
    exact updateAmpStatus_statusOf_self s af.id Status.ERROR hs
  | cons a l1' ih =>
    intro s acc h1 hf h2 hs
    obtain ⟨v, hv⟩ := h1 a (List.mem_cons_self a l1')
    simp only [List.cons_append, vrrpLoop, hv]
    refine ih _ _ (fun b hb => h1 b (List.mem_cons_of_mem a hb)) hf h2 ?_
    rw [updateAmpVrrp_isSome]
    exact hs

lemma ampRetryLoop_le_absent (maxR histLen : Nat)
    (l : List (String × Option ExInfo)) (hle : histLen ≤ maxR)
    (habs : ∃ p ∈ l, absentInfo p.2 = true) :
    ampRetryLoop maxR histLen l = RetryDecision.RETRY := by
  induction l with
  | nil => simp at habs
  | cons p rest ih =>
    obtain ⟨t, o⟩ := p
    simp only [ampRetryLoop, if_pos hle]
    cases o with
    | none => rfl
    | some info =>
      cases hinfo : info.excInfo with
      | none => simp [hinfo]
      | some excp =>
        simp only [hinfo]
        by_cases hc : excp = ErrKind.ampConnectionRetry
        · simp [hc]
        · rw [if_neg hc]
          apply ih
          obtain ⟨q, hq, hqa⟩ := habs
          rcases List.mem_cons.mp hq with h | h
          · subst h
            simp [absentInfo, hinfo] at hqa
          · exact ⟨q, h, hqa⟩

lemma ampRetryLoop_gt (maxR histLen : Nat)
    (l : List (String × Option ExInfo)) (hgt : maxR < histLen) :
    ampRetryLoop maxR histLen l = RetryDecision.REVERT_ALL := by
  induction l with
  | nil => simp [ampRetryLoop]
  | cons p rest ih =>
    obtain ⟨t, o⟩ := p
    simp only [ampRetryLoop]
    rw [if_neg (by omega)]
    exact ih

/-- Claim C2 (amended): a history entry with absent failure info yields
RETRY only when the history length is at most the configured maximum; when
the length exceeds the maximum, on_failure decides REVERT_ALL even with
absent failure info — the safety exception is bounded by the maximum. -/
theorem ampRetry_absent_info_bounded (maxR : Nat)
    (history : List (String × List (String × Option ExInfo)))
    (an : String) (lastErrors : List (String × Option ExInfo))
    (hlast : history.getLast? = some (an, lastErrors)) :
    (history.length ≤ maxR → (∃ p ∈ lastErrors, absentInfo p.2 = true) →
      ampRetryOnFailure maxR history = some RetryDecision.RETRY)
    ∧ (maxR < history.length →
      ampRetryOnFailure maxR history = some RetryDecision.REVERT_ALL) := by
  simp only [ampRetryOnFailure, hlast]
  constructor
  · intro hle habs
    rw [ampRetryLoop_le_absent _ _ _ hle habs]
  · intro hgt
    rw [ampRetryLoop_gt _ _ _ hgt]

/-- Claim C2 (counterexample): with a configured maximum of 2 retries and a
three-attempt history whose most recent attempt records absent failure info,
on_failure decides REVERT_ALL, not RETRY — refuting the claim's "regardless
of how many attempts the history already contains". -/
theorem ampRetry_absent_info_counterexample :
    ampRetryOnFailure 2
      [("a", [("t", none)]), ("a", [("t", none)]), ("a", [("t", none)])] =
      some RetryDecision.REVERT_ALL ∧
    ampRetryOnFailure 2
      [("a", [("t", none)]), ("a", [("t", none)]), ("a", [("t", none)])] ≠
      some RetryDecision.RETRY := by
  decide

/-- Claim C2 witness: the amended theorem applied at concrete histories. -/
theorem ampRetry_absent_info_bounded_witness :
    (ampRetryOnFailure 2 [("a", [("t", none)])] = some RetryDecision.RETRY)
    ∧ (ampRetryOnFailure 1 [("a", [("t", none)]), ("b", [("t", none)])] =
        some RetryDecision.REVERT_ALL) :=
  ⟨(ampRetry_absent_info_bounded 2 [("a", [("t", none)])] "a" [("t", none)]
      rfl).1 (by decide) ⟨("t", none), by decide, by decide⟩,
   (ampRetry_absent_info_bounded 1 [("a", [("t", none)]), ("b", [("t", none)])]
      "b" [("t", none)] rfl).2 (by decide)⟩

/-- Claim C3: with failure info present in the most recent attempt, a
retryable connection error within the attempt bound yields RETRY; a history
longer than the bound, or any other failure class, yields REVERT_ALL. -/
theorem ampRetry_conn_retry_classification (maxR : Nat)
    (history : List (String × List (String × Option ExInfo)))
    (an tn : String) (k : ErrKind)
    (hlast : history.getLast? = some (an, [(tn, some ⟨some k⟩)])) :
    (k = ErrKind.ampConnectionRetry → history.length ≤ maxR →
      ampRetryOnFailure maxR history = some RetryDecision.RETRY)
    ∧ (maxR < history.length →
      ampRetryOnFailure maxR history = some RetryDecision.REVERT_ALL)
    ∧ (k ≠ ErrKind.ampConnectionRetry →
      ampRetryOnFailure maxR history = some RetryDecision.REVERT_ALL) := by
  simp only [ampRetryOnFailure, hlast]
  refine ⟨?_, ?_, ?_⟩
  · intro hk hle
    subst hk
    simp [ampRetryLoop, hle]
  · intro hgt
    rw [ampRetryLoop_gt maxR history.length _ hgt]
  · intro hk
    by_cases hle : history.length ≤ maxR
    · simp [ampRetryLoop, hle, hk]
    · rw [ampRetryLoop_gt maxR history.length _ (by omega)]

/-- Claim C3 witness: the classification applied at concrete histories. -/
theorem ampRetry_conn_retry_classification_witness :
    (ampRetryOnFailure 2
      [("a", [("t", some ⟨some ErrKind.ampConnectionRetry⟩)])] =
      some RetryDecision.RETRY)
    ∧ (ampRetryOnFailure 0
      [("a", [("t", some ⟨some ErrKind.ampConnectionRetry⟩)])] =
      some RetryDecision.REVERT_ALL)
    ∧ (ampRetryOnFailure 2 [("a", [("t", some ⟨some ErrKind.generic⟩)])] =
      some RetryDecision.REVERT_ALL) :=
  ⟨(ampRetry_conn_retry_classification 2
      [("a", [("t", some ⟨some ErrKind.ampConnectionRetry⟩)])] "a" "t"
      ErrKind.ampConnectionRetry rfl).1 rfl (by decide),
   (ampRetry_conn_retry_classification 0
      [("a", [("t", some ⟨some ErrKind.ampConnectionRetry⟩)])] "a" "t"
      ErrKind.ampConnectionRetry rfl).2.1 (by decide),
   (ampRetry_conn_retry_classification 2
      [("a", [("t", some ⟨some ErrKind.generic⟩)])] "a" "t"
      ErrKind.generic rfl).2.2 (by decide)⟩

/-- Claim C1: for the fan-out tasks AmpListenersUpdate and
AmphoraUpdateVRRPInterface, when exactly one target amphora's driver call
raises a non-connectivity error, execute completes without raising, exactly
that amphora's status becomes ERROR, and every other amphora's status is
left unchanged. -/
theorem fanOut_single_failure_isolation :
    (∀ (drv : Driver) (s : Store) (lbId idx : Nat) (amphorae : List Nat)
        (aid : Nat) (a0 : Amphora) (k : ErrKind),
      amphorae[idx]? = some aid →
      s.amps aid = some a0 →
      drv.update_amphora_listeners (s.getLB lbId) (some a0) = Except.error k →
      k ≠ ErrKind.ampConnectionRetry →
      ampListenersUpdateExec drv s lbId idx amphorae =
        (s.updateAmpStatus aid Status.ERROR, Except.ok ()) ∧
      (ampListenersUpdateExec drv s lbId idx amphorae).1.amps aid =
        some { a0 with status := Status.ERROR } ∧
      (∀ j, j ≠ aid →
        (ampListenersUpdateExec drv s lbId idx amphorae).1.amps j = s.amps j))
    ∧
    (∀ (drv : Driver) (s : Store) (lbId : Nat) (db_lb : DbLB)
        (l1 l2 : List Amphora) (af : Amphora) (k : ErrKind),
      s.getLB lbId = some db_lb →
      db_lb.amphorae.filter (fun a => decide (a.status = Status.ALLOCATED)) =
        l1 ++ af :: l2 →
      (∀ a ∈ l1, ∃ v, drv.get_vrrp_interface a = Except.ok v) →
      (∀ a ∈ l2, ∃ v, drv.get_vrrp_interface a = Except.ok v) →
      drv.get_vrrp_interface af = Except.error k →
      k ≠ ErrKind.ampConnectionRetry →
      (s.amps af.id).isSome = true →
      isOkE (amphoraUpdateVRRPInterfaceExec drv s lbId).2 = true ∧
      statusOf (amphoraUpdateVRRPInterfaceExec drv s lbId).1 af.id =
        some Status.ERROR ∧
      (∀ j, j ≠ af.id →
        statusOf (amphoraUpdateVRRPInterfaceExec drv s lbId).1 j =
          statusOf s j)) := by
  constructor
  · intro drv s lbId idx amphorae aid a0 k hidx hamp hdrv _hk
    have hmap : (amphorae.map s.amps)[idx]? = some (s.amps aid) := by
      rw [List.getElem?_map, hidx]
      rfl
    have htry : ampListenersUpdateTry drv s lbId idx amphorae =
        Except.error (Exc.driver k) := by
      simp only [ampListenersUpdateTry, hmap, hamp, hdrv]
    have hexec : ampListenersUpdateExec drv s lbId idx amphorae =
        (s.updateAmpStatus aid Status.ERROR, Except.ok ()) := by
      simp only [ampListenersUpdateExec, htry, hidx]
    refine ⟨hexec, ?_, ?_⟩
    · rw [hexec]
      simp [Store.updateAmpStatus, hamp]
    · intro j hj
      rw [hexec]
      simp [Store.updateAmpStatus, hj]
  · intro drv s lbId db_lb l1 l2 af k hlb hsplit h1 h2 hdrv _hk hsome
    have hexec : amphoraUpdateVRRPInterfaceExec drv s lbId =
        ((vrrpLoop drv (l1 ++ af :: l2) s []).1,
          Except.ok (vrrpLoop drv (l1 ++ af :: l2) s []).2) := by
      simp only [amphoraUpdateVRRPInterfaceExec, hlb, hsplit]
    have herr2 : ∀ a ∈ l2,
        (∀ v, drv.get_vrrp_interface a ≠ Except.ok v) → a.id ≠ af.id := by
      intro a ha herr
      obtain ⟨v, hv⟩ := h2 a ha
      exact absurd hv (herr v)
    refine ⟨?_, ?_, ?_⟩
    · rw [hexec]
      rfl
    · rw [hexec]
      exact vrrpLoop_statusOf_err drv l1 af l2 s [] h1 ⟨k, hdrv⟩ herr2 hsome
    · intro j hj
      rw [hexec]
      refine vrrpLoop_statusOf_ne drv (l1 ++ af :: l2) s [] j ?_
      intro a ha herr
      rcases List.mem_append.mp ha with h | h
      · obtain ⟨v, hv⟩ := h1 a h
        exact absurd hv (herr v)
      · rcases List.mem_cons.mp h with h | h
        · subst h
          exact fun he => hj he.symm
        · obtain ⟨v, hv⟩ := h2 a h
          exact absurd hv (herr v)

/-- Claim C1 witness: both conjuncts applied at concrete inputs:
AmpListenersUpdate over store `c1storeA` with an all-failing driver, and
AmphoraUpdateVRRPInterface over load balancer 0 of `c1storeB` with a driver
failing exactly on amphora 1. -/
theorem fanOut_single_failure_isolation_witness :
    (ampListenersUpdateExec c1drvA c1storeA 0 0 [1] =
      (c1storeA.updateAmpStatus 1 Status.ERROR, Except.ok ()) ∧
     (ampListenersUpdateExec c1drvA c1storeA 0 0 [1]).1.amps 1 =
      some { c1ampA with status := Status.ERROR } ∧
     (ampListenersUpdateExec c1drvA c1storeA 0 0 [1]).1.amps 2 =
      c1storeA.amps 2)
    ∧
    (isOkE (amphoraUpdateVRRPInterfaceExec c1drvB c1storeB 0).2 = true ∧
     statusOf (amphoraUpdateVRRPInterfaceExec c1drvB c1storeB 0).1 1 =
      some Status.ERROR ∧
     statusOf (amphoraUpdateVRRPInterfaceExec c1drvB c1storeB 0).1 2 =
      statusOf c1storeB 2) := by
  have hA := fanOut_single_failure_isolation.1 c1drvA c1storeA 0 0 [1] 1 c1ampA
    ErrKind.generic rfl rfl rfl (by decide)
  have hB := fanOut_single_failure_isolation.2 c1drvB c1storeB 0
    { id := 0, prov_status := Status.ACTIVE, amphorae := [c1amp1, c1amp2],
      listeners := [] }
    [] [c1amp2] c1amp1 ErrKind.generic rfl rfl
    (by intro a ha; exact absurd ha (List.not_mem_nil a))
    (by
      intro a ha
      rw [List.mem_singleton] at ha
      subst ha
      exact ⟨"eth1", rfl⟩)
    rfl (by decide) rfl
  exact ⟨⟨hA.1, hA.2.1, hA.2.2 2 (by decide)⟩,
         ⟨hB.1, hB.2.1, hB.2.2 2 (by decide)⟩⟩

/-- Claim C4 (counterexample): ListenerDelete.revert never inspects the
taskflow result, so even when invoked with its own execute's failure marker
it marks the listener's provisioning status ERROR — an entity status does
change, refuting the claim for the listener-delete task. -/
theorem failFast_revert_noop_counterexample :
    (listenerDeleteRevert TaskResult.failure c4store 5).listeners 5 =
      some { id := 5, prov_status := Status.ERROR } ∧
    c4store.listeners 5 = some { id := 5, prov_status := Status.ACTIVE } ∧
    (listenerDeleteRevert TaskResult.failure c4store 5).listeners 5 ≠
      c4store.listeners 5 :=
  ⟨rfl, rfl, by decide⟩

/-- Claim C4 (amended): with a failure-marker result, the reverts of
AmphoraFinalize, AmphoraPostNetworkPlug and AmphoraPostVIPPlug change no
entity status (the store is untouched); ListenerDelete.revert, however,
ignores the result and marks the listener ERROR unconditionally. -/
theorem failFast_revert_noop_amended (s : Store)
    (ampId lbId listenerId : Nat) :
    amphoraFinalizeRevert TaskResult.failure s ampId = s ∧
    amphoraPostNetworkPlugRevert TaskResult.failure s ampId = s ∧
    amphoraPostVIPPlugRevert TaskResult.failure s ampId lbId = s ∧
    listenerDeleteRevert TaskResult.failure s listenerId =
      s.markListenerProvStatusError listenerId :=
  ⟨rfl, rfl, rfl, rfl⟩

/-- Claim C5 (counterexample): for the fan-out task AmpListenersUpdate the
load-balancer lookup sits inside the per-target try scope; with no load
balancer 7 in the store and a driver that raises on the resulting `None`,
execute completes without raising and converts the failure into a
per-amphora ERROR status — refuting the claim that a missing load balancer
record propagates out of execute for every fan-out task. -/
theorem fanOut_outside_try_counterexample :
    c1storeA.getLB 7 = none ∧
    (ampListenersUpdateExec c1drvA c1storeA 7 0 [1]).2 = Except.ok () ∧
    (ampListenersUpdateExec c1drvA c1storeA 7 0 [1]).1.amps 1 =
      some { id := 1, status := Status.ERROR, vrrp_interface := none } :=
  ⟨rfl, rfl, rfl⟩

/-- Claim C5 (amended): AmphoraUpdateVRRPInterface fetches the load balancer
outside any try, so a missing record raises out of execute; in
AmpListenersUpdate the fetch is inside the per-target try, so (with a valid
amphora index) execute never raises — every error is converted into a
per-amphora ERROR status instead. -/
theorem fanOut_outside_try_amended :
    (∀ (drv : Driver) (s : Store) (lbId : Nat),
      s.lbs lbId = none →
      (amphoraUpdateVRRPInterfaceExec drv s lbId).2 =
        Except.error Exc.noneAttr)
    ∧
    (∀ (drv : Driver) (s : Store) (lbId idx : Nat) (amphorae : List Nat)
        (aid : Nat),
      amphorae[idx]? = some aid →
      isOkE (ampListenersUpdateExec drv s lbId idx amphorae).2 = true) := by
  constructor
  · intro drv s lbId h
    simp [amphoraUpdateVRRPInterfaceExec, Store.getLB, h]
  · intro drv s lbId idx amphorae aid hidx
    cases htry : ampListenersUpdateTry drv s lbId idx amphorae with
    | ok u => simp [ampListenersUpdateExec, htry, isOkE]
    | error e => simp [ampListenersUpdateExec, htry, hidx, isOkE]

/-- Claim C5 witness: the amended theorem applied at concrete inputs. -/
theorem fanOut_outside_try_amended_witness :
    (amphoraUpdateVRRPInterfaceExec c1drvA c1storeA 3).2 =
      Except.error Exc.noneAttr ∧
    isOkE (ampListenersUpdateExec c1drvB c1storeA 3 0 [1]).2 = true :=
  ⟨fanOut_outside_try_amended.1 c1drvA c1storeA 3 rfl,
   fanOut_outside_try_amended.2 c1drvB c1storeA 3 0 [1] 1 rfl⟩

/-- Claim C6 (counterexample): with a driver whose get_info succeeds with
payload 42, AmphoraComputeConnectivityWait.execute completes, but its result
value is None (the Python method has no return statement) — not the info
payload, refuting the claim that execute returns the payload. -/
theorem computeConnectivityWait_counterexample :
    (amphoraComputeConnectivityWaitExec c6drvOk c1storeA 1).2 =
      Except.ok none ∧
    (amphoraComputeConnectivityWaitExec c6drvOk c1storeA 1).2 ≠
      Except.ok (some 42) :=
  ⟨rfl, by
    have h1 : (amphoraComputeConnectivityWaitExec c6drvOk c1storeA 1).2 =
        Except.ok none := rfl
    rw [h1]
    simp⟩

/-- Claim C6 (amended): if get_info raises the timeout error, execute marks
the amphora ERROR and re-raises the timeout error; if get_info succeeds,
execute completes normally with result value None (the info payload is only
logged) and performs no status update. -/
theorem computeConnectivityWait_amended (drv : Driver) (s : Store)
    (ampId : Nat) :
    (drv.get_info (s.amps ampId) = Except.error ErrKind.timeOut →
      amphoraComputeConnectivityWaitExec drv s ampId =
        (s.updateAmpStatus ampId Status.ERROR,
          Except.error (Exc.driver ErrKind.timeOut)))
    ∧ (∀ i, drv.get_info (s.amps ampId) = Except.ok i →
      amphoraComputeConnectivityWaitExec drv s ampId =
        (s, Except.ok none)) := by
  constructor
  · intro h
    simp [amphoraComputeConnectivityWaitExec, h]
  · intro i h
    simp [amphoraComputeConnectivityWaitExec, h]

/-- Claim C6 witness: the amended theorem applied with a timing-out driver
and with a succeeding driver. -/
theorem computeConnectivityWait_amended_witness :
    amphoraComputeConnectivityWaitExec c6drvTimeout c1storeA 1 =
      (c1storeA.updateAmpStatus 1 Status.ERROR,
        Except.error (Exc.driver ErrKind.timeOut)) ∧
    amphoraComputeConnectivityWaitExec c6drvOk c1storeA 1 =
      (c1storeA, Except.ok none) :=
  ⟨(computeConnectivityWait_amended c6drvTimeout c1storeA 1).1 rfl,
   (computeConnectivityWait_amended c6drvOk c1storeA 1).2 42 rfl⟩

/-- Claim C7: VRRP interface discovery over a load balancer with two
ALLOCATED amphorae where get_vrrp_interface raises a generic error for
exactly one of them: the returned amphora collection contains only the
surviving amphora's refreshed snapshot with its vrrp_interface set, and the
failing amphora's stored status is ERROR with vrrp_interface left unset. -/
theorem vrrpInterface_two_amphorae (drv : Driver) (s : Store)
    (lbId x y : Nat) (lst : Status) (lsn ids : List Nat) (i : String)
    (hxy : x ≠ y)
    (hlb : s.lbs lbId = some
      { id := lbId, prov_status := lst, amphoraIds := ids, listenerIds := lsn })
    (hord : ids = [x, y] ∨ ids = [y, x])
    (hx : s.amps x = some ⟨x, Status.ALLOCATED, none⟩)
    (hy : s.amps y = some ⟨y, Status.ALLOCATED, none⟩)
    (hdx : drv.get_vrrp_interface ⟨x, Status.ALLOCATED, none⟩ =
      Except.error ErrKind.generic)
    (hdy : drv.get_vrrp_interface ⟨y, Status.ALLOCATED, none⟩ =
      Except.ok i) :
    (amphoraUpdateVRRPInterfaceExec drv s lbId).2 =
      Except.ok [some ⟨y, Status.ALLOCATED, some i⟩] ∧
    (amphoraUpdateVRRPInterfaceExec drv s lbId).1.amps x =
      some ⟨x, Status.ERROR, none⟩ ∧
    (amphoraUpdateVRRPInterfaceExec drv s lbId).1.amps y =
      some ⟨y, Status.ALLOCATED, some i⟩ := by
  have hyx : y ≠ x := Ne.symm hxy
  rcases hord with h | h <;> subst h <;>
    simp [amphoraUpdateVRRPInterfaceExec, Store.getLB, hlb, hx, hy, vrrpLoop,
      hdx, hdy, Store.updateAmpVrrp, Store.updateAmpStatus, hxy, hyx]

/-- Claim C7 witness: the theorem applied to load balancer 0 of `c1storeB`
with driver `c1drvB`, which fails exactly on amphora 1. -/
theorem vrrpInterface_two_amphorae_witness :
    (amphoraUpdateVRRPInterfaceExec c1drvB c1storeB 0).2 =
      Except.ok [some ⟨2, Status.ALLOCATED, some "eth1"⟩] ∧
    (amphoraUpdateVRRPInterfaceExec c1drvB c1storeB 0).1.amps 1 =
      some ⟨1, Status.ERROR, none⟩ ∧
    (amphoraUpdateVRRPInterfaceExec c1drvB c1storeB 0).1.amps 2 =
      some ⟨2, Status.ALLOCATED, some "eth1"⟩ :=
  vrrpInterface_two_amphorae c1drvB c1storeB 0 1 2 Status.ACTIVE [] [1, 2]
    "eth1" (by decide) rfl (Or.inl rfl) rfl rfl rfl rfl

/-- Claim C8: AmphoraConfigUpdate builds its agent configuration with the
process-wide default topology when flavor is None, and with the flavor's
"loadbalancer_topology" value (here ACTIVE_STANDBY) when the flavor mapping
provides one. -/
theorem configUpdate_topology_selection (ampId : Nat) (dflt : String) :
    (amphoraConfigUpdateAgentConfig ampId none dflt).topology = dflt ∧
    (amphoraConfigUpdateAgentConfig ampId
        (some [("loadbalancer_topology", "ACTIVE_STANDBY")]) dflt).topology =
      "ACTIVE_STANDBY" := by
  constructor
  · rfl
  · rfl

/-- Claim C9: when the driver's update_amphora_agent_config raises the
unsupported-capability error, AmphoraConfigUpdate.execute completes without
raising and changes no entity status (the store is returned untouched). -/
theorem configUpdate_notImplemented_swallowed (drv : Driver) (s : Store)
    (ampId : Nat) (flavor : Option (List (String × String))) (dflt : String)
    (h : drv.update_amphora_agent_config (s.amps ampId)
        (amphoraConfigUpdateAgentConfig ampId flavor dflt) =
      Except.error ErrKind.notImplemented) :
    amphoraConfigUpdateExec drv s ampId flavor dflt = (s, Except.ok ()) := by
  simp [amphoraConfigUpdateExec, h]

/-- Claim C9 witness: the theorem applied with driver `c9drv`. -/
theorem configUpdate_notImplemented_swallowed_witness :
    amphoraConfigUpdateExec c9drv c1storeA 1 none "SINGLE" =
      (c1storeA, Except.ok ()) :=
  configUpdate_notImplemented_swallowed c9drv c1storeA 1 none "SINGLE" rfl

/-- Claim C10: for a load balancer that exists and whose listener collection
is empty, ListenersStart.execute makes no driver start call, performs no
amphora lookup (the event trace is empty), and returns normally with the
store unchanged. -/
theorem listenersStart_empty_noop (drv : Driver) (s : Store) (lbId : Nat)
    (amphora : Option Nat) (db_lb : DbLB)
    (hlb : s.getLB lbId = some db_lb)
    (hempty : db_lb.listeners = []) :
    listenersStartExec drv s lbId amphora = ((s, Except.ok ()), []) := by
  simp [listenersStartExec, hlb, hempty]

/-- Claim C10 witness: the theorem applied to load balancer 0 of `c1storeB`,
which has no listeners, with an amphora argument supplied. -/
theorem listenersStart_empty_noop_witness :
    listenersStartExec c1drvB c1storeB 0 (some 1) =
      ((c1storeB, Except.ok ()), []) :=
  listenersStart_empty_noop c1drvB c1storeB 0 (some 1)
    { id := 0, prov_status := Status.ACTIVE, amphorae := [c1amp1, c1amp2],
      listeners := [] }
    rfl rfl
